import Mathlib

/-!
Verification development for the regnum-front authentication/authorization
core.  The definitions below are a shallow embedding, translated from the
Python sources:

* utils/auth.py        — membership resolver with TTL cache and bypass flag
* utils/config.py      — environment-driven configuration defaults
* utils/auth_middleware.py — guard decorators (require_auth, require_group_auth)
* Home.py              — OAuth callback handling, organization check, admin gate

External effects (Google Directory API calls, token verification, widget
state) are modelled as explicit parameters: a call outcome datatype for the
directory, a verification-outcome datatype for the identity token, and
booleans for checkbox/button state.  Timestamps are naturals; the session
state dictionary is a structure of Option fields.
-/

/-- Python str.lower(), restricted to ASCII case mapping (all emails and
group ids in this system are ASCII). -/
def pyLower (s : String) : String := ⟨s.data.map Char.toLower⟩

/-- Python str.strip(): remove leading and trailing whitespace. -/
def pyStrip (s : String) : String :=
  ⟨((s.data.dropWhile Char.isWhitespace).reverse.dropWhile Char.isWhitespace).reverse⟩

/-- Python str.endswith(t). -/
def pyEndsWith (s t : String) : Bool :=
  List.isPrefixOf t.data.reverse s.data.reverse

/-- Raw environment lookup for BYPASS_GROUP_CHECK as utils/auth.py reads it:
default is the empty string when the variable is absent
(os.environ.get with default two-quote empty), then lowercased and compared
with the string true. -/
def bypass_check (raw : Option String) : Bool :=
  pyLower (raw.getD "") == "true"

/-- utils/config.py line 16: BYPASS_GROUP_CHECK with default string false. -/
def BYPASS_GROUP_CHECK (raw : Option String) : Bool :=
  pyLower (raw.getD "false") == "true"

/-- utils/config.py line 4: REGNUM_ADMIN_GROUP with its hard default. -/
def REGNUM_ADMIN_GROUP (raw : Option String) : String :=
  raw.getD "00kgcv8k1r9idky"

/-- utils/auth.py line 23: cache TTL in seconds. -/
def GROUP_MEMBERSHIP_CACHE_TTL : Nat := 300

/-- The module-level GROUP_MEMBERSHIP_CACHE dictionary: key is the string
email:group, value is (cached boolean, timestamp of the write). -/
def Cache : Type := List (String × (Bool × Nat))

instance : DecidableEq Cache := by
  unfold Cache
  infer_instance

/-- Python dictionary read: cache_key in GROUP_MEMBERSHIP_CACHE plus the
indexed read, as one lookup. -/
def cacheLookup (c : Cache) (k : String) : Option (Bool × Nat) :=
  (c.find? (fun p => p.1 == k)).map (fun p => p.2)

/-- Python dictionary write GROUP_MEMBERSHIP_CACHE[key] = value: replaces any
previous binding of the key. -/
def cacheInsert (c : Cache) (k : String) (v : Bool × Nat) : Cache :=
  (k, v) :: c.filter (fun p => p.1 != k)

/-- Outcome of service.members().get(groupKey, memberKey).execute(): either a
member record is returned, or an HttpError with a status code is raised, or
some other exception is raised (caught by the outer handler). -/
inductive GetOutcome where
  | member
  | httpError (status : Nat)
  | exc
deriving DecidableEq

/-- Outcome of the paginated service.members().list(...) traversal: the full
sequence of pages (each page being the members array, each member record
carrying an optional email field), or an HttpError raised by some page fetch,
or another exception. -/
inductive ListOutcome where
  | pages (ps : List (List (Option String)))
  | httpError (status : Nat)
  | exc
deriving DecidableEq

/-- The Google Directory API surface used by the resolver, for one running
process: outcome of the direct-member get for (group, email), and outcome of
the nested-inclusive listing for a group. -/
structure DirectoryService where
  getMember : String → String → GetOutcome
  listMembers : String → ListOutcome

/-- Observable effect of one is_group_member call: the returned boolean, the
state of GROUP_MEMBERSHIP_CACHE afterwards, the number of
get_directory_service invocations, and the number of Directory API execute
calls made. -/
structure ResolveOut where
  result : Bool
  cache : Cache
  buildAttempts : Nat
  apiCalls : Nat
deriving DecidableEq

/-- utils/auth.py lines 163-257: the body of the try block after a cache miss
or expiry.  e and g are already normalized, key is the cache key. -/
def resolveFresh (service : Option DirectoryService) (now : Nat) (cache : Cache)
    (e g key : String) : ResolveOut :=
  match service with
  | none => ⟨false, cache, 1, 0⟩
  | some s =>
    match s.getMember g e with
    | .member => ⟨true, cacheInsert cache key (true, now), 1, 1⟩
    | .httpError status =>
      if status == 404 then
        match s.listMembers g with
        | .pages ps =>
          let members := ps.foldl (fun acc p => acc ++ p) []
          let isMember := members.any (fun m => pyLower (m.getD "") == pyLower e)
          ⟨isMember, cacheInsert cache key (isMember, now), 1, 1 + ps.length⟩
        | .httpError _ => ⟨false, cache, 1, 2⟩
        | .exc => ⟨false, cache, 1, 2⟩
      else if status == 401 || status == 403 then
        ⟨false, cache, 1, 1⟩
      else
        ⟨false, cache, 1, 1⟩
    | .exc => ⟨false, cache, 1, 1⟩

/-- utils/auth.py lines 116-257, is_group_member.  bypassRaw is the raw
environment value of BYPASS_GROUP_CHECK, service the outcome of
get_directory_service (None when building it fails), now the current time. -/
def is_group_member (bypassRaw : Option String) (service : Option DirectoryService)
    (now : Nat) (cache : Cache) (email groupId : String) : ResolveOut :=
  if bypass_check bypassRaw && (email != "" && pyEndsWith (pyLower email) "@westkingdom.org") then
    ⟨true, cache, 0, 0⟩
  else if email == "" || groupId == "" then
    ⟨false, cache, 0, 0⟩
  else
    let e := pyStrip (pyLower email)
    let g := pyStrip (pyLower groupId)
    let key := e ++ ":" ++ g
    match cacheLookup cache key with
    | some (v, ts) =>
      if now - ts < GROUP_MEMBERSHIP_CACHE_TTL then
        ⟨v, cache, 0, 0⟩
      else
        resolveFresh service now cache e g key
    | none => resolveFresh service now cache e g key

/-- Home.py lines 106-171, is_member_of_group: near-duplicate of the
resolver used by the in-page debugging expander.  No bypass, no cache, no
normalization; the nested-membership fallback performs a single
members().list(...).execute() call, so only the first page of the listing is
examined (results.get with the members key of that one response). -/
def is_member_of_group (service : Option DirectoryService)
    (email groupId : String) : Bool :=
  match service with
  | none => false
  | some s =>
    match s.getMember groupId email with
    | .member => true
    | .httpError status =>
      if status == 404 then
        match s.listMembers groupId with
        | .pages ps =>
          let members := ps.headD []
          members.any (fun m => pyLower (m.getD "") == pyLower email)
        | .httpError _ => false
        | .exc => false
      else
        false
    | .exc => false

/-- st.session_state keys used by the auth flow.  Credential objects are kept
abstract (their content only matters through the token-verification outcome,
passed separately). -/
structure SessionState where
  credentials : Option Unit
  user_email : Option String
  is_admin : Option Bool
deriving DecidableEq

/-- Claims of a verified ID token, as read with idinfo.get. -/
structure IdInfo where
  email : Option String
  hd : Option String
  exp : Option Nat
deriving DecidableEq

/-- Outcome of id_token.verify_oauth2_token: the decoded claims, a ValueError
(invalid or expired token), or some other exception. -/
inductive TokenVerify where
  | ok (idinfo : IdInfo)
  | valueError
  | otherError
deriving DecidableEq

/-- Home.py lines 91-103 and auth_middleware.py lines 10-20 (identical
copies): the hd claim must equal the organization domain. -/
def verify_organization (idinfo : IdInfo) : Bool :=
  idinfo.hd == some "westkingdom.org"

/-- Modelled from the spec: the collaborator interface
current_identity giving email or None.  Not a named function in the source;
the session holds the identity, and every guard treats a missing credentials
key as not-authenticated, so the identity is visible only while the
credentials key is present. -/
def current_identity (s : SessionState) : Option String :=
  if s.credentials.isSome then s.user_email else none

/-- The expiry test of the guard decorators: the exp key is present and
time.time() is strictly past it. -/
def tokenExpired (idinfo : IdInfo) (now : Nat) : Bool :=
  match idinfo.exp with
  | some x => decide (now > x)
  | none => false

/-- Outcome of one run of a guard decorator wrapper. -/
inductive MwOutcome where
  | loginPrompt
  | rerunTriggered
  | runPage
  | accessDenied
  | stoppedError
deriving DecidableEq

/-- auth_middleware.py lines 69-139, require_auth wrapper body.  st.stop and
st.rerun raise, so each denial branch ends the run there; the session-state
deletions preceding st.rerun are the returned state. -/
def require_auth_run (s : SessionState) (verify : TokenVerify) (now : Nat) :
    MwOutcome × SessionState :=
  match s.credentials with
  | none => (.loginPrompt, s)
  | some _ =>
    match verify with
    | .ok idinfo =>
      if tokenExpired idinfo now then
        (.rerunTriggered, { s with credentials := none })
      else if !(verify_organization idinfo) then
        (.rerunTriggered, { s with credentials := none })
      else
        (.runPage, s)
    | .valueError => (.rerunTriggered, { s with credentials := none })
    | .otherError => (.stoppedError, s)

/-- Outcome of utils/queries.get_group_members as consumed by
check_group_membership: a response with a members list, a falsy response or
one missing the members key, or a raised exception. -/
inductive GroupMembersResp where
  | members (ms : List (Option String))
  | missing
  | raised
deriving DecidableEq

/-- auth_middleware.py lines 22-67, check_group_membership: group name is
mapped to an id, the member list fetched over the REST API, and the email
compared case-insensitively; every failure path returns False. -/
def check_group_membership (nameToId : List (String × String))
    (getMembers : String → GroupMembersResp) (email groupName : String) : Bool :=
  match nameToId.find? (fun p => p.1 == groupName) with
  | none => false
  | some p =>
    match getMembers p.2 with
    | .members ms => ms.any (fun m => pyLower (m.getD "") == pyLower email)
    | .missing => false
    | .raised => false

/-- auth_middleware.py lines 141-262, require_group_auth wrapper body.
After session and organization checks, an in-page override checkbox (shown
to organization-domain emails) returns the wrapped page directly, before the
group check; otherwise check_group_membership gates the page. -/
def require_group_auth_run (s : SessionState) (verify : TokenVerify) (now : Nat)
    (override_checked : Bool) (nameToId : List (String × String))
    (getMembers : String → GroupMembersResp) (groupName : String) :
    MwOutcome × SessionState :=
  match s.credentials with
  | none => (.loginPrompt, s)
  | some _ =>
    match verify with
    | .ok idinfo =>
      if tokenExpired idinfo now then
        (.rerunTriggered, { s with credentials := none })
      else if !(verify_organization idinfo) then
        (.rerunTriggered, { s with credentials := none })
      else
        let user_email := idinfo.email.getD ""
        if pyEndsWith user_email "@westkingdom.org" && override_checked then
          (.runPage, s)
        else if !(check_group_membership nameToId getMembers user_email groupName) then
          (.accessDenied, s)
        else
          (.runPage, s)
    | .valueError => (.rerunTriggered, { s with credentials := none })
    | .otherError => (.stoppedError, s)

/-- Outcome of one run of the Home.py page body for the authentication
section. -/
inductive HomeOutcome where
  | loginLink
  | granted (isAdmin : Bool)
  | loggedOut
  | deniedWrongOrg
  | sessionExpired
  | verifyError
deriving DecidableEq

/-- Result of one Home.py run: the outcome, the session state afterwards and
the membership cache afterwards. -/
structure HomeRun where
  outcome : HomeOutcome
  state : SessionState
  cache : Cache
deriving DecidableEq

/-- Home.py lines 200-450, the authenticated-section module body.  verify is
the outcome of id_token.verify_oauth2_token on the stored credentials;
overrideAdmin is the state of the override-admin-access checkbox (rendered
only for organization-domain emails); logoutClicked the state of the Logout
button on this run.  user_email is written to the session before the
organization check; the wrong-organization branch deletes credentials only
when the Logout button was clicked. -/
def home_page_run (bypassRaw : Option String) (service : Option DirectoryService)
    (now : Nat) (cache : Cache) (verify : TokenVerify)
    (overrideAdmin logoutClicked : Bool) (gid : String) (s : SessionState) : HomeRun :=
  match s.credentials with
  | none => ⟨.loginLink, s, cache⟩
  | some _ =>
    match verify with
    | .ok idinfo =>
      let user_email := idinfo.email.getD "unknown"
      let s1 := { s with user_email := some user_email }
      if verify_organization idinfo then
        let r := is_group_member bypassRaw service now cache user_email gid
        let s2 := { s1 with is_admin := some r.result }
        let isAdmin :=
          if pyEndsWith user_email "@westkingdom.org" && overrideAdmin then true
          else r.result
        let s3 :=
          if pyEndsWith user_email "@westkingdom.org" && overrideAdmin then
            { s2 with is_admin := some true }
          else s2
        if logoutClicked then
          ⟨.loggedOut, ⟨none, none, none⟩, r.cache⟩
        else
          ⟨.granted isAdmin, s3, r.cache⟩
      else
        if logoutClicked then
          ⟨.deniedWrongOrg, { s1 with credentials := none }, cache⟩
        else
          ⟨.deniedWrongOrg, s1, cache⟩
    | .valueError => ⟨.sessionExpired, { s with credentials := none }, cache⟩
    | .otherError => ⟨.verifyError, s, cache⟩

/-- Outcome of flow.fetch_token on an authorization code: credentials, or a
raised exception. -/
inductive ExchangeOutcome where
  | ok
  | failed
deriving DecidableEq

/-- Result of the Home.py OAuth-callback prologue: the session state
afterwards, the code query parameter afterwards, and how many token
exchanges were performed. -/
structure CallbackRun where
  state : SessionState
  queryCode : Option String
  exchanges : Nat
deriving DecidableEq

/-- Home.py lines 183-195: the token exchange runs only when the code query
parameter is present and no credentials are in the session; on success the
credentials are stored and the query parameters cleared (then st.rerun), on
failure the error is displayed and the query parameters are left as they
were. -/
def handle_oauth_callback (queryCode : Option String) (s : SessionState)
    (exchange : String → ExchangeOutcome) : CallbackRun :=
  match queryCode with
  | none => ⟨s, none, 0⟩
  | some code =>
    match s.credentials with
    | some _ => ⟨s, some code, 0⟩
    | none =>
      match exchange code with
      | .ok => ⟨{ s with credentials := some () }, none, 1⟩
      | .failed => ⟨s, some code, 1⟩

/-- The cache key the resolver computes for a raw (email, group) pair. -/
def cacheKeyOf (email groupId : String) : String :=
  pyStrip (pyLower email) ++ ":" ++ pyStrip (pyLower groupId)

/-- True when the cache holds an entry for the key whose age is within the
TTL, i.e. the resolver would answer from the cache. -/
def freshHit (cache : Cache) (now : Nat) (k : String) : Bool :=
  match cacheLookup cache k with
  | some (_, ts) => decide (now - ts < GROUP_MEMBERSHIP_CACHE_TTL)
  | none => false

/-- Every directory outcome relevant to resolving normalized (e, g) is a
failure: the service could not be built, or the direct get raises a
non-404 HttpError or another exception, or it raises 404 and the listing
then fails. -/
def failingDirectory (service : Option DirectoryService) (e g : String) : Bool :=
  match service with
  | none => true
  | some s =>
    match s.getMember g e with
    | .member => false
    | .httpError status =>
      if status == 404 then
        match s.listMembers g with
        | .pages _ => false
        | .httpError _ => true
        | .exc => true
      else true
    | .exc => false || true

theorem resolveFresh_failing (service : Option DirectoryService) (now : Nat)
    (cache : Cache) (e g key : String)
    (h : failingDirectory service e g = true) :
    (resolveFresh service now cache e g key).result = false ∧
    (resolveFresh service now cache e g key).cache = cache ∧
    (resolveFresh service now cache e g key).buildAttempts = 1 := by
  cases service with
  | none => simp [resolveFresh]
  | some s =>
    cases hg : s.getMember g e with
    | member => simp [failingDirectory, hg] at h
    | httpError status =>
      by_cases h404 : status = 404
      · subst h404
        cases hl : s.listMembers g with
        | pages ps => simp [failingDirectory, hg, hl] at h
        | httpError st2 => simp [resolveFresh, hg, hl]
        | exc => simp [resolveFresh, hg, hl]
      · by_cases h41 : (status == 401 || status == 403) = true
        · simp [resolveFresh, hg, h404, h41]
        · simp only [Bool.not_eq_true] at h41
          simp [resolveFresh, hg, h404, h41]
    | exc => simp [resolveFresh, hg]

theorem is_group_member_miss (bypassRaw : Option String)
    (service : Option DirectoryService) (now : Nat) (cache : Cache)
    (email groupId : String)
    (hb : bypass_check bypassRaw = false)
    (he : (email == "") = false) (hg : (groupId == "") = false)
    (hfresh : freshHit cache now (cacheKeyOf email groupId) = false) :
    is_group_member bypassRaw service now cache email groupId =
      resolveFresh service now cache (pyStrip (pyLower email))
        (pyStrip (pyLower groupId)) (cacheKeyOf email groupId) := by
  unfold is_group_member
  rw [hb]
  simp only [Bool.false_and, Bool.false_eq_true, if_false]
  rw [he, hg]
  simp only [Bool.or_self, Bool.false_eq_true, if_false]
  unfold freshHit at hfresh
  unfold cacheKeyOf at hfresh ⊢
  cases hl : cacheLookup cache (pyStrip (pyLower email) ++ ":" ++ pyStrip (pyLower groupId)) with
  | none => simp [hl]
  | some p =>
    obtain ⟨v, ts⟩ := p
    rw [hl] at hfresh
    simp only [decide_eq_false_iff_not] at hfresh
    simp [hl, hfresh]

theorem foldl_append_eq_flatten {α : Type} (ps : List (List α)) :
    ∀ acc : List α, ps.foldl (fun a p => a ++ p) acc = acc ++ ps.flatten := by
  induction ps with
  | nil => intro acc; simp
  | cons p rest ih => intro acc; simp [List.foldl_cons, ih, List.append_assoc]

/-- Claim C7: with the bypass flag enabled and the email ending in the
organization domain, is_group_member returns true immediately, with no
get_directory_service call and no Directory API call, leaving the cache as
it was and ignoring its contents; and both environment parsers yield a
disabled flag when the variable is absent. -/
theorem C7_bypass_short_circuit (bypassRaw : Option String)
    (service : Option DirectoryService) (now : Nat) (cache : Cache)
    (email groupId : String)
    (hb : bypass_check bypassRaw = true)
    (he : (email == "") = false)
    (hd : pyEndsWith (pyLower email) "@westkingdom.org" = true) :
    is_group_member bypassRaw service now cache email groupId =
      ⟨true, cache, 0, 0⟩ ∧
    bypass_check none = false ∧ BYPASS_GROUP_CHECK none = false := by
  refine ⟨?_, by decide, by decide⟩
  unfold is_group_member
  rw [hb, hd]
  simp only [Bool.true_and, Bool.and_true]
  simp [bne, he]

/-- Claim C7 witness at a concrete input. -/
theorem C7_bypass_short_circuit_witness :
    is_group_member (some "True") (some ⟨fun _ _ => .exc, fun _ => .exc⟩) 17
        [("x:y", (false, 3))] "Dm@WestKingdom.Org" "regnum-site@westkingdom.org" =
      ⟨true, [("x:y", (false, 3))], 0, 0⟩ ∧
    bypass_check none = false ∧ BYPASS_GROUP_CHECK none = false :=
  C7_bypass_short_circuit (some "True") (some ⟨fun _ _ => .exc, fun _ => .exc⟩) 17
    [("x:y", (false, 3))] "Dm@WestKingdom.Org" "regnum-site@westkingdom.org"
    (by decide) (by decide) (by decide)

/-- Claim C10: a resolution that takes the bypass path (flag enabled, email
in the organization domain) leaves the membership cache exactly as it was:
no entry is written or refreshed. -/
theorem C10_bypass_leaves_cache (bypassRaw : Option String)
    (service : Option DirectoryService) (now : Nat) (cache : Cache)
    (email groupId : String)
    (hb : bypass_check bypassRaw = true)
    (he : (email == "") = false)
    (hd : pyEndsWith (pyLower email) "@westkingdom.org" = true) :
    (is_group_member bypassRaw service now cache email groupId).cache = cache ∧
    (is_group_member bypassRaw service now cache email groupId).result = true := by
  unfold is_group_member
  rw [hb, hd]
  simp only [Bool.true_and, Bool.and_true]
  simp [bne, he]

/-- Claim C10 witness at a concrete input: a cached positive is neither
refreshed nor rewritten by a bypass resolution. -/
theorem C10_bypass_leaves_cache_witness :
    (is_group_member (some "true") none 900
        [("a@westkingdom.org:g", (true, 0))] "a@westkingdom.org" "g").cache =
      [("a@westkingdom.org:g", (true, 0))] ∧
    (is_group_member (some "true") none 900
        [("a@westkingdom.org:g", (true, 0))] "a@westkingdom.org" "g").result = true :=
  C10_bypass_leaves_cache (some "true") none 900
    [("a@westkingdom.org:g", (true, 0))] "a@westkingdom.org" "g"
    (by decide) (by decide) (by decide)

theorem resolveFresh_buildAttempts (service : Option DirectoryService)
    (now : Nat) (cache : Cache) (e g key : String) :
    (resolveFresh service now cache e g key).buildAttempts = 1 := by
  cases service with
  | none => rfl
  | some s =>
    cases hg : s.getMember g e with
    | member => simp [resolveFresh, hg]
    | httpError status =>
      by_cases h404 : status = 404
      · subst h404
        cases hl : s.listMembers g with
        | pages ps => simp [resolveFresh, hg, hl]
        | httpError st2 => simp [resolveFresh, hg, hl]
        | exc => simp [resolveFresh, hg, hl]
      · by_cases h41 : (status == 401 || status == 403) = true
        · simp [resolveFresh, hg, h404, h41]
        · simp only [Bool.not_eq_true] at h41
          simp [resolveFresh, hg, h404, h41]
    | exc => simp [resolveFresh, hg]

theorem cacheLookup_insert (c : Cache) (k : String) (v : Bool × Nat) :
    cacheLookup (cacheInsert c k v) k = some v := by
  simp [cacheLookup, cacheInsert, List.find?]

theorem is_group_member_hit (bypassRaw : Option String)
    (service : Option DirectoryService) (now : Nat) (cache : Cache)
    (email groupId : String) (v : Bool) (ts : Nat)
    (hb : bypass_check bypassRaw = false)
    (he : (email == "") = false) (hg : (groupId == "") = false)
    (hk : cacheLookup cache (cacheKeyOf email groupId) = some (v, ts))
    (hts : now - ts < GROUP_MEMBERSHIP_CACHE_TTL) :
    is_group_member bypassRaw service now cache email groupId = ⟨v, cache, 0, 0⟩ := by
  unfold is_group_member
  rw [hb]
  simp only [Bool.false_and, Bool.false_eq_true, if_false]
  rw [he, hg]
  simp only [Bool.or_self, Bool.false_eq_true, if_false]
  unfold cacheKeyOf at hk
  simp [hk, hts]

/-- Claim C5: a cached entry answers the query exactly when its age is
strictly below the TTL — a fresh hit returns the cached boolean with no
directory activity, an entry at or past the TTL forces a real lookup
(get_directory_service is invoked) whatever the cached boolean was — and a
direct member resolved once is answered from the cache, with zero API
calls, when asked again within the TTL. -/
theorem C5_ttl_gates_cache (bypassRaw : Option String)
    (service : Option DirectoryService) (now : Nat) (cache : Cache)
    (email groupId : String) (v : Bool) (ts : Nat)
    (hb : bypass_check bypassRaw = false)
    (he : (email == "") = false) (hg : (groupId == "") = false)
    (hk : cacheLookup cache (cacheKeyOf email groupId) = some (v, ts)) :
    (now - ts < GROUP_MEMBERSHIP_CACHE_TTL →
      is_group_member bypassRaw service now cache email groupId = ⟨v, cache, 0, 0⟩) ∧
    (¬ (now - ts < GROUP_MEMBERSHIP_CACHE_TTL) →
      (is_group_member bypassRaw service now cache email groupId).buildAttempts = 1) ∧
    (∀ (s : DirectoryService) (t0 t1 : Nat) (c0 : Cache),
      s.getMember (pyStrip (pyLower groupId)) (pyStrip (pyLower email)) = .member →
      cacheLookup c0 (cacheKeyOf email groupId) = none →
      t1 - t0 < GROUP_MEMBERSHIP_CACHE_TTL →
      (is_group_member bypassRaw (some s) t0 c0 email groupId).apiCalls = 1 ∧
      (is_group_member bypassRaw (some s) t0 c0 email groupId).result = true ∧
      is_group_member bypassRaw (some s) t1
          (is_group_member bypassRaw (some s) t0 c0 email groupId).cache email groupId =
        ⟨true, (is_group_member bypassRaw (some s) t0 c0 email groupId).cache, 0, 0⟩) := by
  refine ⟨fun hts => is_group_member_hit _ _ _ _ _ _ _ _ hb he hg hk hts, ?_, ?_⟩
  · intro hts
    have hfresh : freshHit cache now (cacheKeyOf email groupId) = false := by
      unfold freshHit
      rw [hk]
      simp [hts]
    rw [is_group_member_miss bypassRaw service now cache email groupId hb he hg hfresh]
    exact resolveFresh_buildAttempts _ _ _ _ _ _
  · intro s t0 t1 c0 hmem hnone hwin
    have hfresh0 : freshHit c0 t0 (cacheKeyOf email groupId) = false := by
      unfold freshHit
      rw [hnone]
    have h1 : is_group_member bypassRaw (some s) t0 c0 email groupId =
        resolveFresh (some s) t0 c0 (pyStrip (pyLower email)) (pyStrip (pyLower groupId))
          (cacheKeyOf email groupId) :=
      is_group_member_miss bypassRaw (some s) t0 c0 email groupId hb he hg hfresh0
    have h2 : resolveFresh (some s) t0 c0 (pyStrip (pyLower email)) (pyStrip (pyLower groupId))
        (cacheKeyOf email groupId) =
        ⟨true, cacheInsert c0 (cacheKeyOf email groupId) (true, t0), 1, 1⟩ := by
      simp [resolveFresh, hmem]
    rw [h1, h2]
    refine ⟨rfl, rfl, ?_⟩
    exact is_group_member_hit bypassRaw (some s) t1 _ email groupId true t0 hb he hg
      (cacheLookup_insert _ _ _) hwin

/-- Claim C5 witness at a concrete input. -/
theorem C5_ttl_gates_cache_witness :
    ((0 + 299) - 0 < GROUP_MEMBERSHIP_CACHE_TTL →
      is_group_member none none (0 + 299) [("a@org.example:g", (false, 0))]
        "a@org.example" "g" = ⟨false, [("a@org.example:g", (false, 0))], 0, 0⟩) ∧
    (¬ ((0 + 299) - 0 < GROUP_MEMBERSHIP_CACHE_TTL) →
      (is_group_member none none (0 + 299) [("a@org.example:g", (false, 0))]
        "a@org.example" "g").buildAttempts = 1) ∧
    (∀ (s : DirectoryService) (t0 t1 : Nat) (c0 : Cache),
      s.getMember (pyStrip (pyLower "g")) (pyStrip (pyLower "a@org.example")) = .member →
      cacheLookup c0 (cacheKeyOf "a@org.example" "g") = none →
      t1 - t0 < GROUP_MEMBERSHIP_CACHE_TTL →
      (is_group_member none (some s) t0 c0 "a@org.example" "g").apiCalls = 1 ∧
      (is_group_member none (some s) t0 c0 "a@org.example" "g").result = true ∧
      is_group_member none (some s) t1
          (is_group_member none (some s) t0 c0 "a@org.example" "g").cache
          "a@org.example" "g" =
        ⟨true, (is_group_member none (some s) t0 c0 "a@org.example" "g").cache, 0, 0⟩) :=
  C5_ttl_gates_cache none none (0 + 299) [("a@org.example:g", (false, 0))]
    "a@org.example" "g" false 0 (by decide) (by decide) (by decide) (by decide)

/-- Claim C3: when the directory lookup fails (service cannot be built, the
direct get raises, or the 404 fallback listing raises), is_group_member
writes nothing to the membership cache; in particular two successive calls
for the same (email, group) against a persistently failing directory each
invoke get_directory_service (a real attempt), and neither is answered by a
cached negative. -/
theorem C3_failure_never_cached (bypassRaw : Option String)
    (service : Option DirectoryService) (now1 now2 : Nat) (cache : Cache)
    (email groupId : String)
    (hb : bypass_check bypassRaw = false)
    (he : (email == "") = false) (hg : (groupId == "") = false)
    (hfresh1 : freshHit cache now1 (cacheKeyOf email groupId) = false)
    (hfresh2 : freshHit cache now2 (cacheKeyOf email groupId) = false)
    (hfail : failingDirectory service (pyStrip (pyLower email))
      (pyStrip (pyLower groupId)) = true) :
    (is_group_member bypassRaw service now1 cache email groupId).cache = cache ∧
    (is_group_member bypassRaw service now1 cache email groupId).result = false ∧
    (is_group_member bypassRaw service now1 cache email groupId).buildAttempts = 1 ∧
    (is_group_member bypassRaw service now2
        (is_group_member bypassRaw service now1 cache email groupId).cache
        email groupId).cache = cache ∧
    (is_group_member bypassRaw service now2
        (is_group_member bypassRaw service now1 cache email groupId).cache
        email groupId).result = false ∧
    (is_group_member bypassRaw service now2
        (is_group_member bypassRaw service now1 cache email groupId).cache
        email groupId).buildAttempts = 1 := by
  have h1 := is_group_member_miss bypassRaw service now1 cache email groupId hb he hg hfresh1
  have hf1 := resolveFresh_failing service now1 cache (pyStrip (pyLower email))
    (pyStrip (pyLower groupId)) (cacheKeyOf email groupId) hfail
  have hc1 : (is_group_member bypassRaw service now1 cache email groupId).cache = cache := by
    rw [h1]; exact hf1.2.1
  have h2 := is_group_member_miss bypassRaw service now2 cache email groupId hb he hg hfresh2
  have hf2 := resolveFresh_failing service now2 cache (pyStrip (pyLower email))
    (pyStrip (pyLower groupId)) (cacheKeyOf email groupId) hfail
  refine ⟨hc1, ?_, ?_, ?_, ?_, ?_⟩
  · rw [h1]; exact hf1.1
  · rw [h1]; exact hf1.2.2
  · rw [hc1, h2]; exact hf2.2.1
  · rw [hc1, h2]; exact hf2.1
  · rw [hc1, h2]; exact hf2.2.2

/-- Claim C3 witness at a concrete input: a directory whose direct get
raises HttpError 500 on every call, queried twice with an empty cache. -/
theorem C3_failure_never_cached_witness :
    (is_group_member none (some ⟨fun _ _ => .httpError 500, fun _ => .exc⟩)
        5 [] "a@westkingdom.org" "regnum-site").cache = [] ∧
    (is_group_member none (some ⟨fun _ _ => .httpError 500, fun _ => .exc⟩)
        5 [] "a@westkingdom.org" "regnum-site").result = false ∧
    (is_group_member none (some ⟨fun _ _ => .httpError 500, fun _ => .exc⟩)
        5 [] "a@westkingdom.org" "regnum-site").buildAttempts = 1 ∧
    (is_group_member none (some ⟨fun _ _ => .httpError 500, fun _ => .exc⟩) 9
        (is_group_member none (some ⟨fun _ _ => .httpError 500, fun _ => .exc⟩)
          5 [] "a@westkingdom.org" "regnum-site").cache
        "a@westkingdom.org" "regnum-site").cache = [] ∧
    (is_group_member none (some ⟨fun _ _ => .httpError 500, fun _ => .exc⟩) 9
        (is_group_member none (some ⟨fun _ _ => .httpError 500, fun _ => .exc⟩)
          5 [] "a@westkingdom.org" "regnum-site").cache
        "a@westkingdom.org" "regnum-site").result = false ∧
    (is_group_member none (some ⟨fun _ _ => .httpError 500, fun _ => .exc⟩) 9
        (is_group_member none (some ⟨fun _ _ => .httpError 500, fun _ => .exc⟩)
          5 [] "a@westkingdom.org" "regnum-site").cache
        "a@westkingdom.org" "regnum-site").buildAttempts = 1 :=
  C3_failure_never_cached none (some ⟨fun _ _ => .httpError 500, fun _ => .exc⟩)
    5 9 [] "a@westkingdom.org" "regnum-site"
    (by decide) (by decide) (by decide) (by decide) (by decide) (by decide)

/-- Claim C9: with bypass disabled, a subject that is not a direct member
(the direct get raises 404) but whose email occurs, case-insensitively,
somewhere in the nested-inclusive member listing resolves to true, and that
positive outcome is written to the cache under the normalized key with the
current timestamp. -/
theorem C9_nested_fallback (bypassRaw : Option String) (s : DirectoryService)
    (now : Nat) (cache : Cache) (email groupId : String)
    (ps : List (List (Option String)))
    (hb : bypass_check bypassRaw = false)
    (he : (email == "") = false) (hg : (groupId == "") = false)
    (hfresh : freshHit cache now (cacheKeyOf email groupId) = false)
    (h404 : s.getMember (pyStrip (pyLower groupId)) (pyStrip (pyLower email)) =
      .httpError 404)
    (hlist : s.listMembers (pyStrip (pyLower groupId)) = .pages ps)
    (hmem : ps.flatten.any
      (fun m => pyLower (m.getD "") == pyLower (pyStrip (pyLower email))) = true) :
    (is_group_member bypassRaw (some s) now cache email groupId).result = true ∧
    cacheLookup (is_group_member bypassRaw (some s) now cache email groupId).cache
        (cacheKeyOf email groupId) = some (true, now) := by
  rw [is_group_member_miss bypassRaw (some s) now cache email groupId hb he hg hfresh]
  have hmembers : (ps.foldl (fun acc p => acc ++ p) []).any
      (fun m => pyLower (m.getD "") == pyLower (pyStrip (pyLower email))) = true := by
    rw [foldl_append_eq_flatten ps []]
    simpa using hmem
  simp only [resolveFresh, h404, hlist, hmembers]
  exact ⟨rfl, cacheLookup_insert _ _ _⟩

/-- Claim C9 witness at a concrete input: the subject appears only on the
second page of the nested-inclusive listing, with different letter case. -/
theorem C9_nested_fallback_witness :
    (is_group_member none
        (some ⟨fun _ _ => .httpError 404,
          fun _ => .pages [[some "x@westkingdom.org"], [some "Bob@WestKingdom.Org"]]⟩)
        42 [] "bob@westkingdom.org" "regnum-site").result = true ∧
    cacheLookup (is_group_member none
        (some ⟨fun _ _ => .httpError 404,
          fun _ => .pages [[some "x@westkingdom.org"], [some "Bob@WestKingdom.Org"]]⟩)
        42 [] "bob@westkingdom.org" "regnum-site").cache
        (cacheKeyOf "bob@westkingdom.org" "regnum-site") = some (true, 42) :=
  C9_nested_fallback none
    ⟨fun _ _ => .httpError 404,
      fun _ => .pages [[some "x@westkingdom.org"], [some "Bob@WestKingdom.Org"]]⟩
    42 [] "bob@westkingdom.org" "regnum-site"
    [[some "x@westkingdom.org"], [some "Bob@WestKingdom.Org"]]
    (by decide) (by decide) (by decide) (by decide) (by decide) (by decide) (by decide)

/-- Claim C6: the authorization code in the query parameters is exchanged
only when no credentials are in the session — with a session present the
callback performs zero exchanges and leaves the state untouched — and a
successful exchange stores the credentials, counts exactly one exchange,
and strips the code from the query parameters. -/
theorem C6_code_single_use (queryCode : Option String) (s : SessionState)
    (exchange : String → ExchangeOutcome) :
    (s.credentials.isSome = true →
      (handle_oauth_callback queryCode s exchange).exchanges = 0 ∧
      (handle_oauth_callback queryCode s exchange).state = s) ∧
    (∀ code : String, queryCode = some code → s.credentials = none →
      exchange code = .ok →
      (handle_oauth_callback queryCode s exchange).queryCode = none ∧
      (handle_oauth_callback queryCode s exchange).state.credentials = some () ∧
      (handle_oauth_callback queryCode s exchange).exchanges = 1) := by
  constructor
  · intro hs
    cases queryCode with
    | none => exact ⟨rfl, rfl⟩
    | some code =>
      cases hcred : s.credentials with
      | none => rw [hcred] at hs; simp at hs
      | some c => simp [handle_oauth_callback, hcred]
  · intro code hq hcred hx
    subst hq
    simp [handle_oauth_callback, hcred, hx]

/-- Claim C6 witness: replaying a code with a live session performs no
exchange; a first exchange strips the code. -/
theorem C6_code_single_use_witness :
    (handle_oauth_callback (some "abc") ⟨some (), some "a@westkingdom.org", none⟩
        (fun _ => .ok)).exchanges = 0 ∧
    (handle_oauth_callback (some "abc") ⟨none, none, none⟩
        (fun _ => .ok)).queryCode = none :=
  ⟨((C6_code_single_use (some "abc") ⟨some (), some "a@westkingdom.org", none⟩
      (fun _ => .ok)).1 (by decide)).1,
   ((C6_code_single_use (some "abc") ⟨none, none, none⟩
      (fun _ => .ok)).2 "abc" rfl rfl rfl).1⟩

/-- Claim C4 counterexample: on the Home page, a session whose verified
token carries a foreign hd claim is denied, but the credentials stay in the
session (no Logout click happened in that run), user_email has been written,
and the identity remains visible afterwards — the session is not destroyed
as a side effect of the denial. -/
theorem C4_counterexample :
    (home_page_run none none 0 []
        (.ok ⟨some "bob@example.com", some "example.com", none⟩)
        false false "00kgcv8k1r9idky" ⟨some (), none, none⟩).outcome =
      .deniedWrongOrg ∧
    (home_page_run none none 0 []
        (.ok ⟨some "bob@example.com", some "example.com", none⟩)
        false false "00kgcv8k1r9idky" ⟨some (), none, none⟩).state.credentials =
      some () ∧
    current_identity (home_page_run none none 0 []
        (.ok ⟨some "bob@example.com", some "example.com", none⟩)
        false false "00kgcv8k1r9idky" ⟨some (), none, none⟩).state =
      some "bob@example.com" := by
  decide

/-- Claim C4 amended: both guard decorators, require_auth and
require_group_auth, deny a valid, unexpired token with a non-matching hd
claim and delete the credentials in that same run, so the identity is no
longer visible afterwards — for require_group_auth whatever the override
checkbox, the group mapping or the member fetch, since the organization
check runs first.  (The Home page itself only deletes the credentials when
the Logout button is clicked.) -/
theorem C4_amended_guard_destroys (s : SessionState) (idinfo : IdInfo) (now : Nat)
    (hcred : s.credentials.isSome = true)
    (hexp : tokenExpired idinfo now = false)
    (hd : idinfo.hd ≠ some "westkingdom.org") :
    (require_auth_run s (.ok idinfo) now).1 = .rerunTriggered ∧
    (require_auth_run s (.ok idinfo) now).2.credentials = none ∧
    current_identity (require_auth_run s (.ok idinfo) now).2 = none ∧
    (∀ (ov : Bool) (nameToId : List (String × String))
        (getMembers : String → GroupMembersResp) (groupName : String),
      (require_group_auth_run s (.ok idinfo) now ov nameToId getMembers groupName).1 =
        .rerunTriggered ∧
      (require_group_auth_run s (.ok idinfo) now ov nameToId
          getMembers groupName).2.credentials = none ∧
      current_identity (require_group_auth_run s (.ok idinfo) now ov nameToId
          getMembers groupName).2 = none) := by
  cases hc : s.credentials with
  | none => rw [hc] at hcred; simp at hcred
  | some c =>
    have hvo : verify_organization idinfo = false := by
      simp [verify_organization, hd]
    simp [require_auth_run, require_group_auth_run, hc, hexp, hvo, current_identity]

/-- Claim C4 amended witness at a concrete input, exercising both guard
decorators (the override checkbox checked for the group guard). -/
theorem C4_amended_guard_destroys_witness :
    (require_auth_run ⟨some (), some "bob@example.com", none⟩
        (.ok ⟨some "bob@example.com", some "example.com", some 100⟩) 50).1 =
      .rerunTriggered ∧
    (require_auth_run ⟨some (), some "bob@example.com", none⟩
        (.ok ⟨some "bob@example.com", some "example.com", some 100⟩) 50).2.credentials =
      none ∧
    current_identity (require_auth_run ⟨some (), some "bob@example.com", none⟩
        (.ok ⟨some "bob@example.com", some "example.com", some 100⟩) 50).2 = none ∧
    (require_group_auth_run ⟨some (), some "bob@example.com", none⟩
        (.ok ⟨some "bob@example.com", some "example.com", some 100⟩) 50 true
        [("regnum-site", "00kgcv8k1r9idky")] (fun _ => .raised) "regnum-site").1 =
      .rerunTriggered ∧
    (require_group_auth_run ⟨some (), some "bob@example.com", none⟩
        (.ok ⟨some "bob@example.com", some "example.com", some 100⟩) 50 true
        [("regnum-site", "00kgcv8k1r9idky")] (fun _ => .raised)
        "regnum-site").2.credentials = none :=
  have h := C4_amended_guard_destroys ⟨some (), some "bob@example.com", none⟩
    ⟨some "bob@example.com", some "example.com", some 100⟩ 50
    (by decide) (by decide) (by decide)
  ⟨h.1, h.2.1, h.2.2.1,
   (h.2.2.2 true [("regnum-site", "00kgcv8k1r9idky")] (fun _ => .raised) "regnum-site").1,
   (h.2.2.2 true [("regnum-site", "00kgcv8k1r9idky")] (fun _ => .raised) "regnum-site").2.1⟩

/-- Claim C2 counterexample: the resolver returns the very same value, the
boolean false, for a directory answering the direct get with HttpError 403
(permission failure) as for a directory that confirms the subject is not a
member; the Bool return type carries no distinct indeterminate outcome a
caller could tell apart. -/
theorem C2_counterexample :
    (is_group_member none (some ⟨fun _ _ => .httpError 403, fun _ => .exc⟩)
        0 [] "a@westkingdom.org" "g").result =
      (is_group_member none
        (some ⟨fun _ _ => .httpError 404, fun _ => .pages [[some "other@westkingdom.org"]]⟩)
        0 [] "a@westkingdom.org" "g").result ∧
    (is_group_member none (some ⟨fun _ _ => .httpError 403, fun _ => .exc⟩)
        0 [] "a@westkingdom.org" "g").result = false := by
  decide

/-- Claim C2 amended: a 401 or 403 permission failure, whether raised by the
direct membership get or by the nested-inclusive listing reached after a
404, makes the resolver return false — denial, the same boolean a confirmed
non-member receives — without writing anything to the cache; the permission
failure is recorded only in logs, not in the returned value. -/
theorem C2_amended_perm_denies_uncached (bypassRaw : Option String)
    (s : DirectoryService) (now : Nat) (cache : Cache) (email groupId : String)
    (hb : bypass_check bypassRaw = false)
    (he : (email == "") = false) (hg : (groupId == "") = false)
    (hfresh : freshHit cache now (cacheKeyOf email groupId) = false)
    (hperm :
      (s.getMember (pyStrip (pyLower groupId)) (pyStrip (pyLower email)) =
          .httpError 401 ∨
        s.getMember (pyStrip (pyLower groupId)) (pyStrip (pyLower email)) =
          .httpError 403) ∨
      (s.getMember (pyStrip (pyLower groupId)) (pyStrip (pyLower email)) =
          .httpError 404 ∧
        (s.listMembers (pyStrip (pyLower groupId)) = .httpError 401 ∨
          s.listMembers (pyStrip (pyLower groupId)) = .httpError 403))) :
    (is_group_member bypassRaw (some s) now cache email groupId).result = false ∧
    (is_group_member bypassRaw (some s) now cache email groupId).cache = cache := by
  rw [is_group_member_miss bypassRaw (some s) now cache email groupId hb he hg hfresh]
  rcases hperm with (h | h) | ⟨h404, (hl | hl)⟩
  · simp [resolveFresh, h]
  · simp [resolveFresh, h]
  · simp [resolveFresh, h404, hl]
  · simp [resolveFresh, h404, hl]

/-- Claim C2 amended witness at a concrete input: the permission failure is
raised by the listing stage, after a 404 from the direct get. -/
theorem C2_amended_perm_denies_uncached_witness :
    (is_group_member none
        (some ⟨fun _ _ => .httpError 404, fun _ => .httpError 403⟩)
        7 [] "a@westkingdom.org" "regnum-site").result = false ∧
    (is_group_member none
        (some ⟨fun _ _ => .httpError 404, fun _ => .httpError 403⟩)
        7 [] "a@westkingdom.org" "regnum-site").cache = [] :=
  C2_amended_perm_denies_uncached none
    ⟨fun _ _ => .httpError 404, fun _ => .httpError 403⟩
    7 [] "a@westkingdom.org" "regnum-site"
    (by decide) (by decide) (by decide) (by decide)
    (Or.inr ⟨by decide, Or.inr (by decide)⟩)

/-- A get_group_members outcome that yields no member list: a falsy or
key-less response, or a raised exception. -/
def failingMembersFetch (resp : GroupMembersResp) : Bool :=
  match resp with
  | .members _ => false
  | .missing => true
  | .raised => true

/-- Claim C1 counterexample: bypass disabled (variable absent), the
directory call fails (direct get raises HttpError 500, so the resolver
returns false after one real attempt), yet the Home run ends in admin
access granted because the override-admin-access checkbox is checked for an
organization-domain email — an unconditional-access path besides the bypass
flag, on an execution whose directory call failed. -/
theorem C1_counterexample :
    bypass_check none = false ∧
    (is_group_member none (some ⟨fun _ _ => .httpError 500, fun _ => .exc⟩)
        0 [] "user@westkingdom.org" "00kgcv8k1r9idky").result = false ∧
    (is_group_member none (some ⟨fun _ _ => .httpError 500, fun _ => .exc⟩)
        0 [] "user@westkingdom.org" "00kgcv8k1r9idky").buildAttempts = 1 ∧
    (home_page_run none (some ⟨fun _ _ => .httpError 500, fun _ => .exc⟩) 0 []
        (.ok ⟨some "user@westkingdom.org", some "westkingdom.org", none⟩)
        true false "00kgcv8k1r9idky" ⟨some (), none, none⟩).outcome =
      .granted true := by
  decide

/-- Claim C1 amended: with bypass disabled AND no in-page override checkbox
checked, a failing directory never yields access: the Home run grants only
basic access (is_admin false), and require_group_auth ends in access denied
when the member fetch fails.  When the token/auth machinery raises instead
(a ValueError or any other exception from token verification), no access is
granted either — on Home the run ends in the expired-session or
verification-error branch, and require_group_auth ends in a rerun or a stop
— whatever the override checkbox or Logout button state, since those errors
end the run before any override is reached.  The override checkboxes (and
the bypass flag) remain the only unconditional-access paths. -/
theorem C1_amended_no_silent_grant (bypassRaw : Option String)
    (service : Option DirectoryService) (now : Nat) (cache : Cache)
    (idinfo : IdInfo) (gid : String) (s : SessionState)
    (nameToId : List (String × String))
    (getMembers : String → GroupMembersResp) (groupName : String)
    (pr : String × String)
    (hb : bypass_check bypassRaw = false)
    (hcred : s.credentials.isSome = true)
    (horg : idinfo.hd = some "westkingdom.org")
    (he : (idinfo.email.getD "unknown" == "") = false)
    (hg : (gid == "") = false)
    (hfresh : freshHit cache now (cacheKeyOf (idinfo.email.getD "unknown") gid) = false)
    (hfail : failingDirectory service (pyStrip (pyLower (idinfo.email.getD "unknown")))
      (pyStrip (pyLower gid)) = true)
    (hexp : tokenExpired idinfo now = false)
    (hmap : nameToId.find? (fun p => p.1 == groupName) = some pr)
    (hfm : failingMembersFetch (getMembers pr.2) = true) :
    (home_page_run bypassRaw service now cache (.ok idinfo) false false gid s).outcome =
      .granted false ∧
    (require_group_auth_run s (.ok idinfo) now false nameToId getMembers groupName).1 =
      .accessDenied ∧
    (∀ ov lo : Bool,
      (home_page_run bypassRaw service now cache .valueError ov lo gid s).outcome =
        .sessionExpired ∧
      (home_page_run bypassRaw service now cache .otherError ov lo gid s).outcome =
        .verifyError ∧
      (require_group_auth_run s .valueError now ov nameToId getMembers groupName).1 =
        .rerunTriggered ∧
      (require_group_auth_run s .otherError now ov nameToId getMembers groupName).1 =
        .stoppedError) := by
  have hvo : verify_organization idinfo = true := by
    simp [verify_organization, horg]
  have hres : (is_group_member bypassRaw service now cache
      (idinfo.email.getD "unknown") gid).result = false := by
    rw [is_group_member_miss bypassRaw service now cache _ gid hb he hg hfresh]
    exact (resolveFresh_failing service now cache _ _ _ hfail).1
  have hcgm : check_group_membership nameToId getMembers
      (idinfo.email.getD "") groupName = false := by
    unfold check_group_membership
    rw [hmap]
    cases hr : getMembers pr.2 with
    | members ms => rw [hr] at hfm; simp [failingMembersFetch] at hfm
    | missing => simp [hr]
    | raised => simp [hr]
  cases hc : s.credentials with
  | none => rw [hc] at hcred; simp at hcred
  | some c =>
    refine ⟨by simp [home_page_run, hc, hvo, hres],
            by simp [require_group_auth_run, hc, hexp, hvo, hcgm],
            fun ov lo => ⟨by simp [home_page_run, hc], by simp [home_page_run, hc],
              by simp [require_group_auth_run, hc], by simp [require_group_auth_run, hc]⟩⟩

/-- Claim C1 amended witness at a concrete input, including a
token-verification error with the override checkbox checked. -/
theorem C1_amended_no_silent_grant_witness :
    (home_page_run none (some ⟨fun _ _ => .httpError 500, fun _ => .exc⟩) 3 []
        (.ok ⟨some "user@westkingdom.org", some "westkingdom.org", some 10⟩)
        false false "00kgcv8k1r9idky" ⟨some (), none, none⟩).outcome =
      .granted false ∧
    (require_group_auth_run ⟨some (), none, none⟩
        (.ok ⟨some "user@westkingdom.org", some "westkingdom.org", some 10⟩) 3 false
        [("regnum-site", "00kgcv8k1r9idky")] (fun _ => .raised) "regnum-site").1 =
      .accessDenied ∧
    (home_page_run none (some ⟨fun _ _ => .httpError 500, fun _ => .exc⟩) 3 []
        .valueError true false "00kgcv8k1r9idky" ⟨some (), none, none⟩).outcome =
      .sessionExpired ∧
    (require_group_auth_run ⟨some (), none, none⟩ .otherError 3 true
        [("regnum-site", "00kgcv8k1r9idky")] (fun _ => .raised) "regnum-site").1 =
      .stoppedError :=
  have h := C1_amended_no_silent_grant none
    (some ⟨fun _ _ => .httpError 500, fun _ => .exc⟩)
    3 [] ⟨some "user@westkingdom.org", some "westkingdom.org", some 10⟩
    "00kgcv8k1r9idky" ⟨some (), none, none⟩
    [("regnum-site", "00kgcv8k1r9idky")] (fun _ => .raised) "regnum-site"
    ("regnum-site", "00kgcv8k1r9idky")
    (by decide) (by decide) (by decide) (by decide) (by decide) (by decide)
    (by decide) (by decide) (by decide) (by decide)
  ⟨h.1, h.2.1, (h.2.2 true false).1, (h.2.2 true false).2.2.2⟩

/-- Claim C8 counterexample: a subject present only on the second page of
the nested-inclusive listing.  The Home page checker is_member_of_group
answers false — its decision is computed from the first page alone — even
though the subject occurs in the full listing, which the utils/auth resolver
confirms by answering true on the same directory. -/
theorem C8_counterexample :
    is_member_of_group
        (some ⟨fun _ _ => .httpError 404,
          fun _ => .pages [[some "x@westkingdom.org"], [some "bob@westkingdom.org"]]⟩)
        "bob@westkingdom.org" "g" = false ∧
    [[some "x@westkingdom.org"], [some "bob@westkingdom.org"]].flatten.any
        (fun m => pyLower (m.getD "") == pyLower "bob@westkingdom.org") = true ∧
    (is_group_member none
        (some ⟨fun _ _ => .httpError 404,
          fun _ => .pages [[some "x@westkingdom.org"], [some "bob@westkingdom.org"]]⟩)
        0 [] "bob@westkingdom.org" "g").result = true := by
  decide

/-- Claim C8 amended: the utils/auth resolver scans the concatenation of
every page of the listing (all continuation cursors followed before the
search), while the duplicate checker in Home.py scans only the first page. -/
theorem C8_amended_pagination (bypassRaw : Option String) (s : DirectoryService)
    (now : Nat) (cache : Cache) (email groupId : String)
    (ps : List (List (Option String)))
    (hb : bypass_check bypassRaw = false)
    (he : (email == "") = false) (hg : (groupId == "") = false)
    (hfresh : freshHit cache now (cacheKeyOf email groupId) = false)
    (h404 : s.getMember (pyStrip (pyLower groupId)) (pyStrip (pyLower email)) =
      .httpError 404)
    (h404b : s.getMember groupId email = .httpError 404)
    (hlist : s.listMembers (pyStrip (pyLower groupId)) = .pages ps)
    (hlistb : s.listMembers groupId = .pages ps) :
    (is_group_member bypassRaw (some s) now cache email groupId).result =
      ps.flatten.any
        (fun m => pyLower (m.getD "") == pyLower (pyStrip (pyLower email))) ∧
    is_member_of_group (some s) email groupId =
      (ps.headD []).any (fun m => pyLower (m.getD "") == pyLower email) := by
  constructor
  · rw [is_group_member_miss bypassRaw (some s) now cache email groupId hb he hg hfresh]
    simp only [resolveFresh, h404, hlist]
    rw [foldl_append_eq_flatten ps []]
    simp
  · simp [is_member_of_group, h404b, hlistb]

/-- Claim C8 amended witness at a concrete input. -/
theorem C8_amended_pagination_witness :
    (is_group_member none
        (some ⟨fun _ _ => .httpError 404,
          fun _ => .pages [[some "x@westkingdom.org"], [some "carol@westkingdom.org"]]⟩)
        11 [] "carol@westkingdom.org" "g2").result =
      [[some "x@westkingdom.org"], [some "carol@westkingdom.org"]].flatten.any
        (fun m => pyLower (m.getD "") ==
          pyLower (pyStrip (pyLower "carol@westkingdom.org"))) ∧
    is_member_of_group
        (some ⟨fun _ _ => .httpError 404,
          fun _ => .pages [[some "x@westkingdom.org"], [some "carol@westkingdom.org"]]⟩)
        "carol@westkingdom.org" "g2" =
      ([[some "x@westkingdom.org"], [some "carol@westkingdom.org"]].headD []).any
        (fun m => pyLower (m.getD "") == pyLower "carol@westkingdom.org") :=
  C8_amended_pagination none
    ⟨fun _ _ => .httpError 404,
      fun _ => .pages [[some "x@westkingdom.org"], [some "carol@westkingdom.org"]]⟩
    11 [] "carol@westkingdom.org" "g2"
    [[some "x@westkingdom.org"], [some "carol@westkingdom.org"]]
    (by decide) (by decide) (by decide) (by decide) (by decide) (by decide)
    (by decide) (by decide)
